import Mathlib

/-!
Verification of the pumpkin-calculator firmware core (code.py, usbdevice.py).

Shallow embedding conventions:
  * The display TileGrid (15 columns x 8 rows of sprite indices) is a
    `List (List Nat)`: outer list indexed by row `y`, inner by column `x`,
    matching `tg[x, y]` reads/writes in code.py.
  * Python dicts (`lightdarkmap`, `_NAMES`) iterate in insertion order, so
    they are embedded as association lists in source order.
  * The USB transport is an oracle: each blocking read outcome is scripted
    as `ReadOutcome` (data / timeout / other USB error), and the
    configuration sub-steps of `USBDevice._configure` are an oracle record.
  * The single preallocated report buffer (`self.buf`) is modelled with a
    tiny heap (`Nat -> List Nat`) so that buffer aliasing is observable:
    `poll` yields references (buffer ids), not copies.
-/

namespace Pumpkin

/-! ## Display tile grid (displayio TileGrid, 15 wide x 8 tall) -/

/-- Tile grid: row-major list of rows; `gridGet g x y` is `tg[x, y]`. -/
abbrev Grid := List (List Nat)

def gridGet (g : Grid) (x y : Nat) : Nat := (g.getD y []).getD x 0

def gridSet (g : Grid) (x y v : Nat) : Grid := g.set y ((g.getD y []).set x v)

/-- Well-formedness of the program's real grid: 8 rows of 15 tiles
(`TileGrid(... width=15, height=8 ...)` in code.py). -/
def GridWF (g : Grid) : Prop := g.length = 8 ∧ ∀ r ∈ g, r.length = 15

instance (g : Grid) : Decidable (GridWF g) :=
  inferInstanceAs (Decidable (_ ∧ _))

/-! ### List micro-lemmas for `set`/`getD` -/

theorem getD_set_self {α : Type} (d : α) :
    ∀ (l : List α) (i : Nat) (v : α), i < l.length → (l.set i v).getD i d = v
  | [], i, _, h => absurd h (Nat.not_lt_zero i)
  | _ :: _, 0, _, _ => rfl
  | _ :: l, i + 1, v, h => getD_set_self d l i v (Nat.lt_of_succ_lt_succ h)

theorem getD_set_ne {α : Type} (d : α) :
    ∀ (l : List α) (i j : Nat), i ≠ j → ∀ v, (l.set i v).getD j d = l.getD j d
  | [], _, _, _, _ => rfl
  | _ :: _, 0, 0, h, _ => absurd rfl h
  | _ :: _, 0, _ + 1, _, _ => rfl
  | _ :: _, _ + 1, 0, _, _ => rfl
  | _ :: l, i + 1, j + 1, h, v =>
      getD_set_ne d l i j (fun e => h (congrArg Nat.succ e)) v

theorem mem_set_cases {α : Type} :
    ∀ (l : List α) (i : Nat) (v a : α), a ∈ l.set i v → a ∈ l ∨ a = v
  | [], _, _, _, h => Or.inl h
  | _ :: _, 0, _, a, h => by
      rcases List.mem_cons.mp h with h1 | h1
      · exact Or.inr h1
      · exact Or.inl (List.mem_cons_of_mem _ h1)
  | b :: l, i + 1, v, a, h => by
      rcases List.mem_cons.mp h with h1 | h1
      · exact Or.inl (h1 ▸ List.mem_cons_self b l)
      · rcases mem_set_cases l i v a h1 with h2 | h2
        · exact Or.inl (List.mem_cons_of_mem _ h2)
        · exact Or.inr h2

theorem getD_mem {α : Type} (d : α) :
    ∀ (l : List α) (i : Nat), i < l.length → l.getD i d ∈ l
  | [], i, h => absurd h (Nat.not_lt_zero i)
  | b :: _, 0, _ => List.mem_cons_self b _
  | _ :: l, i + 1, h =>
      List.mem_cons_of_mem _ (getD_mem d l i (Nat.lt_of_succ_lt_succ h))

theorem gridGet_gridSet_self (g : Grid) (x y v : Nat)
    (hy : y < g.length) (hx : x < (g.getD y []).length) :
    gridGet (gridSet g x y v) x y = v := by
  unfold gridGet gridSet
  rw [getD_set_self [] g y _ hy, getD_set_self 0 _ x v hx]

theorem gridGet_gridSet_ne (g : Grid) (x y x' y' v : Nat)
    (h : (y, x) ≠ (y', x')) :
    gridGet (gridSet g x' y' v) x y = gridGet g x y := by
  unfold gridGet gridSet
  by_cases hy : y' = y
  · subst hy
    have hx : x' ≠ x := fun e => h (by rw [e])
    by_cases hlt : y' < g.length
    · rw [getD_set_self [] g y' _ hlt, getD_set_ne 0 _ x' x hx]
    · have : g.set y' ((g.getD y' []).set x' v) = g :=
        List.set_eq_of_length_le (Nat.le_of_not_lt hlt)
      rw [this]
  · rw [getD_set_ne [] g y' y hy]

theorem gridSet_WF (g : Grid) (x y v : Nat) (hwf : GridWF g)
    (hy : y < 8) (_hx : x < 15) : GridWF (gridSet g x y v) := by
  obtain ⟨hlen, hrows⟩ := hwf
  constructor
  · simpa [gridSet] using hlen
  · intro r hr
    rcases mem_set_cases g y _ r hr with h1 | h1
    · exact hrows r h1
    · have hmem : g.getD y [] ∈ g := getD_mem [] g y (by omega)
      rw [h1, List.length_set]
      exact hrows _ hmem

/-! ## Report decoding (code.py main loop, lines 216-228)

`codes = [int(b) for b in report[2:8]]` takes bytes 2..7 of the report;
the non-zero candidates are the list comprehension
`[k for k in codes if k != 0]` used for the names line. -/

/-- Bytes 2..7 of a report, i.e. the Python slice `report[2:8]`. -/
def codesOf (report : List Nat) : List Nat := (report.drop 2).take 6

/-- The decoded scancode candidates: non-zero bytes of `report[2:8]`
(the membership set pushed into the renderer and the names line). -/
def decode (report : List Nat) : List Nat :=
  (codesOf report).filter (fun b => b ≠ 0)

/-- Claim C1: for every 8-byte report buffer, decoding excludes bytes 0 and 1
regardless of their value, and the decoded scancode set contains exactly the
non-zero byte values at indices 2 through the end. -/
theorem c1_decode_nonzero_suffix (R : List Nat) (hR : R.length = 8) :
    (∀ b, b ∈ decode R ↔ (b ≠ 0 ∧ b ∈ R.drop 2)) ∧
    (∀ a0 a1, decode (a0 :: a1 :: R.drop 2) = decode R) := by
  have hdrop : (R.drop 2).length = 6 := by
    rw [List.length_drop, hR]
  have htake : (R.drop 2).take 6 = R.drop 2 :=
    List.take_of_length_le (le_of_eq hdrop)
  constructor
  · intro b
    unfold decode codesOf
    rw [htake, List.mem_filter]
    simp [and_comm]
  · intro a0 a1
    unfold decode codesOf
    have h2 : (a0 :: a1 :: R.drop 2).drop 2 = R.drop 2 := rfl
    rw [h2]

theorem c1_decode_nonzero_suffix_witness :
    ([0, 0, 0x59, 0, 0, 0, 0, 0] : List Nat).length = 8 ∧
    ((∀ b, b ∈ decode [0, 0, 0x59, 0, 0, 0, 0, 0] ↔
        (b ≠ 0 ∧ b ∈ ([0, 0, 0x59, 0, 0, 0, 0, 0] : List Nat).drop 2)) ∧
     (∀ a0 a1, decode (a0 :: a1 :: ([0, 0, 0x59, 0, 0, 0, 0, 0] : List Nat).drop 2) =
        decode [0, 0, 0x59, 0, 0, 0, 0, 0])) :=
  ⟨by decide, c1_decode_nonzero_suffix [0, 0, 0x59, 0, 0, 0, 0, 0] (by decide)⟩

/-! ## Key-state renderer (Pumpkin.set_lightdark, code.py lines 111-149)

`lightdarkmap` is the dict from `Pumpkin.__init__`, in insertion order.
Each entry maps a scancode to its cell list; entries are
`(y, x, light_sprite, dark_sprite)`.  `_Entr` (0x58) and `_ErrRollover`
(0x01) have two cells, every other key has one. -/

def lightdarkmap : List (Nat × List (Nat × Nat × Nat × Nat)) :=
  [ (0x01, [(1, 6, 12, 16), (1, 7, 12, 17)]),
    (0x62, [(4, 2, 63, 43)]), (0x59, [(4, 3, 64, 44)]), (0x5a, [(4, 4, 65, 45)]),
    (0x5b, [(4, 5, 66, 46)]), (0x5c, [(4, 6, 67, 47)]),
    (0x57, [(4, 9, 103, 83)]), (0x56, [(4, 10, 104, 84)]), (0x55, [(4, 11, 105, 85)]),
    (0x54, [(4, 12, 106, 86)]), (0x63, [(4, 13, 107, 87)]),
    (0x5d, [(5, 2, 73, 53)]), (0x5e, [(5, 3, 74, 54)]), (0x5f, [(5, 4, 75, 55)]),
    (0x60, [(5, 5, 76, 56)]), (0x61, [(5, 6, 77, 57)]),
    (0x2b, [(5, 9, 113, 93)]), (0x2a, [(5, 10, 114, 94)]),
    (0x58, [(5, 11, 115, 95), (5, 12, 116, 96)]) ]

/-- One planned cell update, `(y, x, sprite)`: the sprite chosen for that
cell is `dark` when the key is in the scancode list, else `light`
(`s = dark if k in scancodes else light`). -/
def targetsOf (S : List Nat) :
    List (Nat × List (Nat × Nat × Nat × Nat)) → List (Nat × Nat × Nat)
  | [] => []
  | (k, cells) :: rest =>
      cells.map (fun c => (c.1, c.2.1, if k ∈ S then c.2.2.2 else c.2.2.1)) ++
        targetsOf S rest

def ldTargets (S : List Nat) : List (Nat × Nat × Nat) :=
  targetsOf S lightdarkmap

/-- Apply planned cell updates in order; `if _tg[x, y] != s: _tg[x, y] = s`.
Returns the updated grid and the list of writes `(y, x, sprite)` actually
issued to the tile grid. -/
def applyTargets : List (Nat × Nat × Nat) → Grid → Grid × List (Nat × Nat × Nat)
  | [], g => (g, [])
  | (y, x, s) :: rest, g =>
      if gridGet g x y ≠ s then
        let r := applyTargets rest (gridSet g x y s)
        (r.1, (y, x, s) :: r.2)
      else
        applyTargets rest g

/-- `Pumpkin.set_lightdark(scancodes)`: per map entry (insertion order),
choose dark/light by membership and write only cells whose value changes.
The sprite decisions never read the grid, so planning all targets first and
then applying them reproduces the source's interleaved loop exactly. -/
def set_lightdark (scancodes : List Nat) (g : Grid) :
    Grid × List (Nat × Nat × Nat) :=
  applyTargets (ldTargets scancodes) g

/-- The tile map installed by `Pumpkin.__init__` (code.py lines 90-105):
the grid state right after startup, with every key indicator light. -/
def initialGrid : Grid :=
  [ [12, 12, 12, 12, 12, 12, 12, 12, 12, 12, 12, 12, 12, 12, 12],
    [12, 12, 12, 14, 15, 12, 12, 12, 12, 12, 14, 15, 12, 12, 12],
    [12, 22, 23, 24, 25, 26, 27, 12, 22, 23, 24, 25, 26, 27, 12],
    [12, 32, 33, 34, 35, 36, 37, 38, 32, 33, 34, 35, 36, 37, 38],
    [12, 62, 63, 64, 65, 66, 67, 68, 102, 103, 104, 105, 106, 107, 108],
    [12, 72, 73, 74, 75, 76, 77, 78, 112, 113, 114, 115, 116, 117, 118],
    [12, 122, 123, 124, 125, 126, 127, 128, 122, 123, 124, 125, 126, 127, 128],
    [12, 12, 133, 134, 135, 136, 137, 12, 12, 133, 134, 135, 136, 137, 12] ]

/-! ## Scancode names and per-report processing (code.py lines 182-229) -/

/-- The `_NAMES` dict of `main()`, in insertion order. -/
def reportNames : List (Nat × String) :=
  [ (0x01, "ErrRollover"), (0x2a, "Bksp"), (0x2b, "Tab"),
    (0x54, "/"), (0x55, "*"), (0x56, "-"), (0x57, "+"), (0x58, "Entr"),
    (0x59, "1"), (0x5a, "2"), (0x5b, "3"), (0x5c, "4"), (0x5d, "5"),
    (0x5e, "6"), (0x5f, "7"), (0x60, "8"), (0x61, "9"), (0x62, "0"),
    (0x63, ".") ]

/-- `[_NAMES[k] for k in codes if k != 0]`: evaluated left to right; a key
absent from `_NAMES` raises `KeyError` (modelled as `.error k`). -/
def namesOf : List Nat → Except Nat (List String)
  | [] => .ok []
  | k :: rest =>
      if k = 0 then namesOf rest
      else
        match reportNames.lookup k with
        | some n => (namesOf rest).map (fun ns => n :: ns)
        | none => .error k

/-- One iteration of the inner polling loop body (code.py lines 216-229)
for a yielded report: `None` is skipped; otherwise compute `codes`, build
the names line (which can raise `KeyError`), then `set_lightdark(codes)`
and one `display.refresh()`.  Result: grid, tile writes, refresh count. -/
def processReport (r : Option (List Nat)) (g : Grid) :
    Except Nat (Grid × List (Nat × Nat × Nat) × Nat) :=
  match r with
  | none => .ok (g, [], 0)
  | some report =>
      let codes := codesOf report
      match namesOf codes with
      | .error k => .error k
      | .ok _ =>
          let r := set_lightdark codes g
          .ok (r.1, r.2, 1)

/-! ### Renderer lemmas -/

theorem applyTargets_get_untouched :
    ∀ (ts : List (Nat × Nat × Nat)) (g : Grid) (x y : Nat),
      (∀ t ∈ ts, (t.1, t.2.1) ≠ (y, x)) →
      gridGet (applyTargets ts g).1 x y = gridGet g x y
  | [], _, _, _, _ => rfl
  | (y0, x0, s0) :: rest, g, x, y, h => by
      have hne : ((y0 : Nat), (x0 : Nat)) ≠ (y, x) :=
        h (y0, x0, s0) (List.mem_cons_self _ _)
      have hrest : ∀ t ∈ rest, (t.1, t.2.1) ≠ (y, x) :=
        fun t ht => h t (List.mem_cons_of_mem _ ht)
      by_cases hw : gridGet g x0 y0 ≠ s0
      · simp only [applyTargets, if_pos hw]
        rw [applyTargets_get_untouched rest _ x y hrest]
        exact gridGet_gridSet_ne g x y x0 y0 s0 (fun e => hne e.symm)
      · simp only [applyTargets, if_neg hw]
        exact applyTargets_get_untouched rest g x y hrest

theorem applyTargets_writes_sub :
    ∀ (ts : List (Nat × Nat × Nat)) (g : Grid) (w : Nat × Nat × Nat),
      w ∈ (applyTargets ts g).2 → w ∈ ts
  | [], _, _, h => absurd h (List.not_mem_nil _)
  | (y0, x0, s0) :: rest, g, w, h => by
      by_cases hw : gridGet g x0 y0 ≠ s0
      · simp only [applyTargets, if_pos hw] at h
        rcases List.mem_cons.mp h with h1 | h1
        · exact h1 ▸ List.mem_cons_self _ _
        · exact List.mem_cons_of_mem _ (applyTargets_writes_sub rest _ w h1)
      · simp only [applyTargets, if_neg hw] at h
        exact List.mem_cons_of_mem _ (applyTargets_writes_sub rest g w h)

theorem applyTargets_writes_changed :
    ∀ (ts : List (Nat × Nat × Nat)) (g : Grid),
      ((ts.map (fun t => (t.1, t.2.1))).Nodup) →
      ∀ w ∈ (applyTargets ts g).2, gridGet g w.2.1 w.1 ≠ w.2.2
  | [], _, _, w, hw => absurd hw (List.not_mem_nil w)
  | (y0, x0, s0) :: rest, g, hnod, w, hmem => by
      obtain ⟨hhead, htail⟩ := List.nodup_cons.mp hnod
      have hhead' : ((y0 : Nat), (x0 : Nat)) ∉
          rest.map (fun t => (t.1, t.2.1)) := hhead
      by_cases hw : gridGet g x0 y0 ≠ s0
      · simp only [applyTargets, if_pos hw] at hmem
        rcases List.mem_cons.mp hmem with h1 | h1
        · rw [h1]; exact hw
        · have hsub : w ∈ rest := applyTargets_writes_sub rest _ w h1
          have hcne : ((w.1 : Nat), (w.2.1 : Nat)) ≠ (y0, x0) := by
            intro e
            apply hhead'
            rw [← e]
            exact List.mem_map_of_mem _ hsub
          have := applyTargets_writes_changed rest _ htail w h1
          rwa [gridGet_gridSet_ne g w.2.1 w.1 x0 y0 s0 hcne] at this
      · simp only [applyTargets, if_neg hw] at hmem
        exact applyTargets_writes_changed rest g htail w hmem

theorem applyTargets_get_self :
    ∀ (ts : List (Nat × Nat × Nat)) (g : Grid), GridWF g →
      (∀ t ∈ ts, t.1 < 8 ∧ t.2.1 < 15) →
      ((ts.map (fun t => (t.1, t.2.1))).Nodup) →
      ∀ t ∈ ts, gridGet (applyTargets ts g).1 t.2.1 t.1 = t.2.2
  | [], _, _, _, _, t, ht => absurd ht (List.not_mem_nil t)
  | (y0, x0, s0) :: rest, g, hwf, hbnd, hnod, t, ht => by
      obtain ⟨hhead, htail⟩ := List.nodup_cons.mp hnod
      obtain ⟨hy0, hx0⟩ := hbnd (y0, x0, s0) (List.mem_cons_self _ _)
      have hbrest : ∀ t ∈ rest, t.1 < 8 ∧ t.2.1 < 15 :=
        fun t ht => hbnd t (List.mem_cons_of_mem _ ht)
      have hrowlen : (g.getD y0 []).length = 15 :=
        hwf.2 _ (getD_mem [] g y0 (by rw [hwf.1]; exact hy0))
      have hhead' : ((y0 : Nat), (x0 : Nat)) ∉
          rest.map (fun t => (t.1, t.2.1)) := hhead
      have hrestne : ∀ u ∈ rest, (u.1, u.2.1) ≠ ((y0 : Nat), (x0 : Nat)) := by
        intro u hu e
        apply hhead'
        rw [← e]
        exact List.mem_map_of_mem _ hu
      by_cases hw : gridGet g x0 y0 ≠ s0
      · simp only [applyTargets, if_pos hw]
        have hwf1 : GridWF (gridSet g x0 y0 s0) := gridSet_WF g x0 y0 s0 hwf hy0 hx0
        rcases List.mem_cons.mp ht with h1 | h1
        · rw [h1]
          rw [applyTargets_get_untouched rest _ x0 y0 hrestne]
          exact gridGet_gridSet_self g x0 y0 s0 (by rw [hwf.1]; exact hy0)
            (by rw [hrowlen]; exact hx0)
        · exact applyTargets_get_self rest _ hwf1 hbrest htail t h1
      · simp only [applyTargets, if_neg hw]
        rcases List.mem_cons.mp ht with h1 | h1
        · rw [h1]
          rw [applyTargets_get_untouched rest g x0 y0 hrestne]
          exact Classical.not_not.mp hw
        · exact applyTargets_get_self rest g hwf hbrest htail t h1

theorem applyTargets_noop :
    ∀ (ts : List (Nat × Nat × Nat)) (g : Grid),
      (∀ t ∈ ts, gridGet g t.2.1 t.1 = t.2.2) →
      applyTargets ts g = (g, [])
  | [], _, _ => rfl
  | (y0, x0, s0) :: rest, g, h => by
      have h0 : gridGet g x0 y0 = s0 := h (y0, x0, s0) (List.mem_cons_self _ _)
      simp only [applyTargets, h0, ne_eq, not_true_eq_false, if_false, ite_false]
      exact applyTargets_noop rest g (fun t ht => h t (List.mem_cons_of_mem _ ht))

theorem targetsOf_coords (S : List Nat) :
    ∀ m, (targetsOf S m).map (fun t => (t.1, t.2.1)) =
      (targetsOf [] m).map (fun t => (t.1, t.2.1))
  | [] => rfl
  | (k, cells) :: rest => by
      simp only [targetsOf, List.map_append, List.map_map]
      rw [targetsOf_coords S rest]
      congr 1

theorem ldTargets_coords (S : List Nat) :
    (ldTargets S).map (fun t => (t.1, t.2.1)) =
      (ldTargets []).map (fun t => (t.1, t.2.1)) :=
  targetsOf_coords S lightdarkmap

theorem ldCoords_nodup : ((ldTargets []).map (fun t => (t.1, t.2.1))).Nodup := by
  decide

theorem ldCoords_bounds :
    ∀ c ∈ (ldTargets []).map (fun t => (t.1, t.2.1)), c.1 < 8 ∧ c.2 < 15 := by
  decide

/-- Claim C5: the renderer never writes a tile index equal to the value the
target cell already holds, and rendering the same scancode set twice in a
row performs zero tile writes on the second call. -/
theorem c5_write_avoidance (S : List Nat) (g : Grid) (hwf : GridWF g) :
    (∀ w ∈ (set_lightdark S g).2, gridGet g w.2.1 w.1 ≠ w.2.2) ∧
    (set_lightdark S (set_lightdark S g).1).2 = [] := by
  have hnod : ((ldTargets S).map (fun t => (t.1, t.2.1))).Nodup := by
    rw [ldTargets_coords]; exact ldCoords_nodup
  have hbnd : ∀ t ∈ ldTargets S, t.1 < 8 ∧ t.2.1 < 15 := by
    intro t ht
    have hm : (t.1, t.2.1) ∈ (ldTargets S).map (fun u => (u.1, u.2.1)) :=
      List.mem_map_of_mem _ ht
    rw [ldTargets_coords] at hm
    exact ldCoords_bounds _ hm
  constructor
  · exact applyTargets_writes_changed (ldTargets S) g hnod
  · have hset := applyTargets_get_self (ldTargets S) g hwf hbnd hnod
    have hnoop : applyTargets (ldTargets S) (set_lightdark S g).1 =
        ((set_lightdark S g).1, []) :=
      applyTargets_noop _ _ (fun t ht => hset t ht)
    show (applyTargets (ldTargets S) (set_lightdark S g).1).2 = []
    rw [hnoop]

theorem c5_write_avoidance_witness :
    GridWF initialGrid ∧
    ((∀ w ∈ (set_lightdark [0x59] initialGrid).2,
        gridGet initialGrid w.2.1 w.1 ≠ w.2.2) ∧
     (set_lightdark [0x59] (set_lightdark [0x59] initialGrid).1).2 = []) :=
  ⟨by decide, c5_write_avoidance [0x59] initialGrid (by decide)⟩

theorem targetsOf_congr (S S' : List Nat) (h : ∀ k, k ∈ S ↔ k ∈ S') :
    ∀ m, targetsOf S m = targetsOf S' m
  | [] => rfl
  | (k, cells) :: rest => by
      simp only [targetsOf]
      rw [targetsOf_congr S S' h rest]
      congr 1
      apply List.map_congr_left
      intro c _
      by_cases hk : k ∈ S
      · rw [if_pos hk, if_pos ((h k).mp hk)]
      · rw [if_neg hk, if_neg (fun hc => hk ((h k).mpr hc))]

/-- Claim C6: rendering depends on the scancode collection only through
membership; two collections equal as sets produce identical grids and
identical tile-grid writes. -/
theorem c6_order_independent (S S' : List Nat) (g : Grid)
    (h : ∀ k, k ∈ S ↔ k ∈ S') :
    set_lightdark S g = set_lightdark S' g := by
  show applyTargets (targetsOf S lightdarkmap) g =
    applyTargets (targetsOf S' lightdarkmap) g
  rw [targetsOf_congr S S' h lightdarkmap]

theorem c6_order_independent_witness :
    (∀ k, k ∈ ([0x59, 0x58] : List Nat) ↔ k ∈ ([0x58, 0x59, 0x59] : List Nat)) ∧
    set_lightdark [0x59, 0x58] initialGrid =
      set_lightdark [0x58, 0x59, 0x59] initialGrid :=
  ⟨fun k => by simp [List.mem_cons]; tauto,
   c6_order_independent [0x59, 0x58] [0x58, 0x59, 0x59] initialGrid
     (fun k => by simp [List.mem_cons]; tauto)⟩

/-- Claim C9: processing report `[0,0,0x59,0,0,0,0,0]` (only the "1" key
held) from the startup grid writes exactly the "1" key's cell (row 4,
column 3) with its dark sprite 44, leaves every other cell unchanged, and
issues exactly one display refresh. -/
theorem c9_one_key_report :
    processReport (some [0, 0, 0x59, 0, 0, 0, 0, 0]) initialGrid =
      Except.ok (gridSet initialGrid 3 4 44, [(4, 3, 44)], 1) ∧
    gridGet (gridSet initialGrid 3 4 44) 3 4 = 44 ∧
    (∀ x, x < 15 → ∀ y, y < 8 → ((y : Nat), (x : Nat)) ≠ (4, 3) →
      gridGet (gridSet initialGrid 3 4 44) x y = gridGet initialGrid x y) :=
  ⟨rfl, by decide, by decide⟩

/-- Claim C2 (refuted by the code): a report whose non-zero scancode 0x04
is absent from the `_NAMES` table makes the names line raise `KeyError`
(code.py line 225); the `except USBError` handler does not catch KeyError,
so the per-report processing crashes. -/
theorem c2_unknown_scancode_keyerror :
    processReport (some [0, 0, 0x04, 0, 0, 0, 0, 0]) initialGrid =
      Except.error 0x04 := rfl

/-! ## USB device session (usbdevice.py)

The transport collaborator is an oracle: configuration sub-step outcomes
are an explicit record, and each blocking `device.read` outcome is one
scripted `ReadOutcome`.  `.error ()` / `.usberror` stand for a raised
`usb.core.USBError`; `.timeout` for `usb.core.USBTimeoutError`. -/

/-- A `usb.core.Device`: identifiers can be reported absent (`None`). -/
structure Device where
  idVendor : Option Nat
  idProduct : Option Nat
deriving DecidableEq

/-- `USBDevice` mutable state: the nullable `self.device` handle and the
one preallocated report buffer `self.buf`, represented by its id into a
tiny heap so buffer aliasing stays observable. -/
structure Session where
  device : Option Device
  bufId : Nat
deriving DecidableEq

/-- `USBDevice.reset()`: unconditionally clears the stored handle. -/
def reset (s : Session) : Session := { s with device := none }

/-- Outcomes of the three configuration sub-steps used by `_configure`:
`is_kernel_driver_active`, `detach_kernel_driver`, `set_configuration`. -/
structure ConfigOracle where
  kernelDriverActive : Except Unit Bool
  detachKernelDriver : Except Unit Unit
  setConfiguration : Except Unit Unit

/-- Body of the `try` block of `USBDevice._configure`. -/
def configSteps (o : ConfigOracle) : Except Unit Unit := do
  let active ← o.kernelDriverActive
  if active then o.detachKernelDriver else pure ()
  o.setConfiguration

/-- `USBDevice._configure(device)`: run the sub-steps; on `USBError`,
`reset()` and re-raise; on success store the device handle. -/
def configure (s : Session) (d : Device) (o : ConfigOracle) :
    Session × Except Unit Unit :=
  match configSteps o with
  | .ok _ => ({ s with device := some d }, .ok ())
  | .error e => (reset s, .error e)

/-- `USBDevice.find_and_configure()`: `core.find(...)`, then `sleep(0.1)`
(the sleep sits before the found/not-found branch, so it runs on both
paths), then `_configure` on a positive find, or `reset()` and `False`
when nothing was found.  The last component logs the internal sleeps in
milliseconds, in order. -/
def find_and_configure (s : Session) (found : Option Device)
    (o : ConfigOracle) : Session × Except Unit Bool × List Nat :=
  match found with
  | some d =>
      match configure s d o with
      | (s1, .ok _) => (s1, .ok true, [100])
      | (s1, .error e) => (s1, .error e, [100])
  | none => (reset s, .ok false, [100])

/-- Heap holding report buffer contents, addressed by buffer id. -/
abbrev Heap := Nat → List Nat

def hupdate (h : Heap) (i : Nat) (v : List Nat) : Heap :=
  fun j => if j = i then v else h j

/-- One scripted outcome of `device.read(endpoint, buf, timeout)`. -/
inductive ReadOutcome
  | ok (data : List Nat)
  | timeout
  | usberror

/-- Observed run of the `poll` generator: final session, final heap, the
values yielded in order (`some bufId` for a report reference, `none` for a
timeout), and whether a `USBError` was re-raised. -/
structure PollResult where
  sess : Session
  heap : Heap
  yields : List (Option Nat)
  raised : Bool

/-- Generator loop of `USBDevice.poll`: a successful read writes the
device data into the cached buffer and yields a reference to it; a timeout
yields `None` and continues; any other `USBError` calls `reset()` and
re-raises, terminating the sequence. -/
def pollGo (bufId : Nat) : Session → Heap → List ReadOutcome → PollResult
  | s, h, [] => ⟨s, h, [], false⟩
  | s, h, .ok d :: rest =>
      let r := pollGo bufId s (hupdate h bufId d) rest
      ⟨r.sess, r.heap, some bufId :: r.yields, r.raised⟩
  | s, h, .timeout :: rest =>
      let r := pollGo bufId s h rest
      ⟨r.sess, r.heap, none :: r.yields, r.raised⟩
  | s, h, .usberror :: _ => ⟨reset s, h, [], true⟩

/-- `USBDevice.poll()`: immediately empty when no device is connected,
otherwise the generator loop with the cached buffer reference. -/
def poll (s : Session) (h : Heap) (script : List ReadOutcome) : PollResult :=
  match s.device with
  | none => ⟨s, h, [], false⟩
  | some _ => pollGo s.bufId s h script

/-- Python `"%04x" % n`: lowercase hex, left-padded with zeros to width 4. -/
def hex4 (n : Nat) : String :=
  let ds := Nat.toDigits 16 n
  String.mk (List.replicate (4 - ds.length) '0' ++ ds)

/-- `USBDevice.device_info_str()`: sentinel when not connected; sentinel
when the connected device reports `None` for either identifier (the code
tests `vid is None or pid is None`); otherwise the connected summary. -/
def device_info_str (s : Session) : String :=
  match s.device with
  | none => "[Not connected]"
  | some d =>
      match d.idVendor, d.idProduct with
      | some vid, some pid => "Connected: " ++ hex4 vid ++ ":" ++ hex4 pid
      | _, _ => "[bad vid:pid]"

/-! ### Session lemmas and claims -/

theorem pollGo_raised (b : Nat) :
    ∀ (script : List ReadOutcome) (s : Session) (h : Heap),
      (pollGo b s h script).raised = true →
      (pollGo b s h script).sess.device = none
  | [], _, _ => by simp [pollGo]
  | .ok d :: rest, s, h => pollGo_raised b rest s (hupdate h b d)
  | .timeout :: rest, s, h => pollGo_raised b rest s h
  | .usberror :: _, _, _ => fun _ => rfl

/-- Claim C3: whenever a configuration sub-step or a poll read fails with a
transport error, the session handle is cleared (disconnected) before the
error propagates, so no caller observes a connected session after the
error. -/
theorem c3_error_resets_session :
    (∀ (s : Session) (d : Device) (o : ConfigOracle) (e : Unit),
      (configure s d o).2 = .error e → (configure s d o).1.device = none) ∧
    (∀ (s : Session) (h : Heap) (script : List ReadOutcome),
      (poll s h script).raised = true → (poll s h script).sess.device = none) := by
  constructor
  · intro s d o e hcfg
    cases hst : configSteps o with
    | ok u => rw [configure, hst] at hcfg; exact absurd hcfg (by simp)
    | error e1 => rw [configure, hst]; rfl
  · intro s h script hr
    cases hs : s.device with
    | none => rw [poll, hs] at hr; exact absurd hr (by simp)
    | some d =>
        rw [poll, hs] at hr ⊢
        exact pollGo_raised s.bufId script s h hr

theorem c3_error_resets_session_witness :
    ((configure ⟨some ⟨some 0x04d9, some 0xa02a⟩, 0⟩ ⟨some 0x04d9, some 0xa02a⟩
        ⟨.ok false, .ok (), .error ()⟩).2 = .error () ∧
      (configure ⟨some ⟨some 0x04d9, some 0xa02a⟩, 0⟩ ⟨some 0x04d9, some 0xa02a⟩
        ⟨.ok false, .ok (), .error ()⟩).1.device = none) ∧
    ((poll ⟨some ⟨some 0x04d9, some 0xa02a⟩, 0⟩ (fun _ => [])
        [.usberror]).raised = true ∧
      (poll ⟨some ⟨some 0x04d9, some 0xa02a⟩, 0⟩ (fun _ => [])
        [.usberror]).sess.device = none) :=
  ⟨⟨rfl, c3_error_resets_session.1 _ _ _ () rfl⟩,
   ⟨rfl, c3_error_resets_session.2 _ _ [.usberror] rfl⟩⟩

/-- Claim C4: polling while disconnected produces an immediately empty
sequence; a timeout while connected yields `None` at that position and the
run continues exactly as the run on the remaining script. -/
theorem c4_poll_empty_and_timeout :
    (∀ (s : Session) (h : Heap) (script : List ReadOutcome),
      s.device = none → poll s h script = ⟨s, h, [], false⟩) ∧
    (∀ (s : Session) (d : Device) (h : Heap) (rest : List ReadOutcome),
      s.device = some d →
      poll s h (.timeout :: rest) =
        ⟨(poll s h rest).sess, (poll s h rest).heap,
         none :: (poll s h rest).yields, (poll s h rest).raised⟩) := by
  constructor
  · intro s h script hs
    rw [poll, hs]
  · intro s d h rest hs
    rw [poll, hs, poll, hs]
    rfl

theorem c4_poll_empty_and_timeout_witness :
    ((⟨none, 0⟩ : Session).device = none ∧
      poll ⟨none, 0⟩ (fun _ => []) [.ok [1], .timeout] =
        ⟨⟨none, 0⟩, fun _ => [], [], false⟩) ∧
    ((⟨some ⟨some 1, some 2⟩, 0⟩ : Session).device = some ⟨some 1, some 2⟩ ∧
      poll ⟨some ⟨some 1, some 2⟩, 0⟩ (fun _ => []) [.timeout] =
        ⟨(poll ⟨some ⟨some 1, some 2⟩, 0⟩ (fun _ => []) []).sess,
         (poll ⟨some ⟨some 1, some 2⟩, 0⟩ (fun _ => []) []).heap,
         none :: (poll ⟨some ⟨some 1, some 2⟩, 0⟩ (fun _ => []) []).yields,
         (poll ⟨some ⟨some 1, some 2⟩, 0⟩ (fun _ => []) []).raised⟩) :=
  ⟨⟨rfl, c4_poll_empty_and_timeout.1 ⟨none, 0⟩ (fun _ => []) [.ok [1], .timeout] rfl⟩,
   ⟨rfl, c4_poll_empty_and_timeout.2 _ ⟨some 1, some 2⟩ (fun _ => []) [] rfl⟩⟩

/-- Buffer content after running a read script: each successful read
overwrites the single buffer; an error stops the run. -/
def bufAfter : List Nat → List ReadOutcome → List Nat
  | b, [] => b
  | _, .ok d :: rest => bufAfter d rest
  | b, .timeout :: rest => bufAfter b rest
  | b, .usberror :: _ => b

theorem pollGo_buffer (b : Nat) :
    ∀ (script : List ReadOutcome) (s : Session) (h : Heap),
      (∀ y ∈ (pollGo b s h script).yields, ∀ i, y = some i → i = b) ∧
      (pollGo b s h script).heap b = bufAfter (h b) script
  | [], _, _ => ⟨by simp [pollGo], rfl⟩
  | .ok d :: rest, s, h => by
      obtain ⟨h1, h2⟩ := pollGo_buffer b rest s (hupdate h b d)
      constructor
      · intro y hy i hyi
        rcases List.mem_cons.mp hy with he | he
        · rw [he] at hyi
          exact (Option.some_inj.mp hyi).symm
        · exact h1 y he i hyi
      · show (pollGo b s (hupdate h b d) rest).heap b = bufAfter d rest
        rw [h2]
        simp [hupdate]
  | .timeout :: rest, s, h => by
      obtain ⟨h1, h2⟩ := pollGo_buffer b rest s h
      constructor
      · intro y hy i hyi
        rcases List.mem_cons.mp hy with he | he
        · rw [he] at hyi; exact absurd hyi (by simp)
        · exact h1 y he i hyi
      · exact h2
  | .usberror :: _, _, _ => ⟨by simp [pollGo], rfl⟩

/-- Claim C10: within one `poll` run every yielded report is a reference to
the session's single preallocated buffer, and after the run that buffer
holds the data of the newest successful read, so dereferencing any earlier
yielded report returns the newest report's bytes. -/
theorem c10_shared_buffer (s : Session) (d : Device) (h : Heap)
    (script : List ReadOutcome) (hs : s.device = some d) :
    (∀ y ∈ (poll s h script).yields, ∀ i, y = some i → i = s.bufId) ∧
    (∀ y ∈ (poll s h script).yields, ∀ i, y = some i →
      (poll s h script).heap i = bufAfter (h s.bufId) script) := by
  rw [poll, hs]
  obtain ⟨h1, h2⟩ := pollGo_buffer s.bufId script s h
  refine ⟨h1, ?_⟩
  intro y hy i hyi
  rw [h1 y hy i hyi, h2]

theorem c10_shared_buffer_witness :
    (⟨some ⟨some 1, some 2⟩, 7⟩ : Session).device = some ⟨some 1, some 2⟩ ∧
    ((∀ y ∈ (poll ⟨some ⟨some 1, some 2⟩, 7⟩ (fun _ => [])
        [.ok [1, 1, 1], .timeout, .ok [2, 2, 2]]).yields,
        ∀ i, y = some i → i = (7 : Nat)) ∧
     (∀ y ∈ (poll ⟨some ⟨some 1, some 2⟩, 7⟩ (fun _ => [])
        [.ok [1, 1, 1], .timeout, .ok [2, 2, 2]]).yields,
        ∀ i, y = some i →
          (poll ⟨some ⟨some 1, some 2⟩, 7⟩ (fun _ => [])
            [.ok [1, 1, 1], .timeout, .ok [2, 2, 2]]).heap i =
          bufAfter ((fun _ => ([] : List Nat)) 7)
            [.ok [1, 1, 1], .timeout, .ok [2, 2, 2]])) :=
  ⟨rfl, c10_shared_buffer _ ⟨some 1, some 2⟩ (fun _ => [])
    [.ok [1, 1, 1], .timeout, .ok [2, 2, 2]] rfl⟩

/-- Claim C7 counterexample: when the transport reports numeric zero/zero
identifiers (`idVendor = idProduct = 0`), `device_info_str` returns the
normal connected summary, not the `[bad vid:pid]` sentinel — the code
tests `vid is None`, not `vid == 0`. -/
theorem c7_zero_ids_counterexample :
    device_info_str ⟨some ⟨some 0, some 0⟩, 0⟩ = "Connected: 0000:0000" ∧
    device_info_str ⟨some ⟨some 0, some 0⟩, 0⟩ ≠ "[bad vid:pid]" ∧
    device_info_str ⟨some ⟨some 0, some 0⟩, 0⟩ ≠ "[Not connected]" := by
  refine ⟨rfl, ?_, ?_⟩ <;> decide

/-- Claim C7 as amended: `device_info_str` returns the `[Not connected]`
sentinel when disconnected, and returns the distinct `[bad vid:pid]`
sentinel when a connected device reports an absent (`None`) vendor or
product identifier; identifiers reported as numeric zero instead produce
the normal connected summary. -/
theorem c7_sentinels (s : Session) :
    (s.device = none → device_info_str s = "[Not connected]") ∧
    (∀ d, s.device = some d → (d.idVendor = none ∨ d.idProduct = none) →
      device_info_str s = "[bad vid:pid]") ∧
    ("[Not connected]" : String) ≠ "[bad vid:pid]" := by
  refine ⟨?_, ?_, by decide⟩
  · intro hs
    rw [device_info_str, hs]
  · intro d hs hnone
    obtain ⟨dv, dp⟩ := d
    rw [device_info_str, hs]
    rcases hnone with h1 | h1
    · have h1' : dv = none := h1
      subst h1'
      cases dp <;> rfl
    · have h1' : dp = none := h1
      subst h1'
      cases dv <;> rfl

theorem c7_sentinels_witness :
    ((⟨none, 0⟩ : Session).device = none ∧
      device_info_str ⟨none, 0⟩ = "[Not connected]") ∧
    ((⟨some ⟨none, some 5⟩, 0⟩ : Session).device = some ⟨none, some 5⟩ ∧
      device_info_str ⟨some ⟨none, some 5⟩, 0⟩ = "[bad vid:pid]") :=
  ⟨⟨rfl, (c7_sentinels ⟨none, 0⟩).1 rfl⟩,
   ⟨rfl, (c7_sentinels ⟨some ⟨none, some 5⟩, 0⟩).2.1 ⟨none, some 5⟩ rfl
      (Or.inl rfl)⟩⟩

/-- Claim C8 counterexample: on the no-device-found path
`find_and_configure` still performs its internal settle-delay sleep — the
`sleep(0.1)` sits before the found/not-found branch (usbdevice.py line
38), so the sleep log is `[100]`, not empty. -/
theorem c8_sleep_counterexample :
    (find_and_configure ⟨none, 0⟩ none ⟨.ok false, .ok (), .ok ()⟩).2.2 = [100] ∧
    ((100 : Nat) :: [] : List Nat) ≠ [] := by
  exact ⟨rfl, by decide⟩

/-- Claim C8 as amended: the settle-delay sleep runs unconditionally after
every discovery attempt, on the found path and the no-device path alike;
when no device is found the session still resets to disconnected and the
call returns false (after that sleep). -/
theorem c8_sleep_both_paths (s : Session) (o : ConfigOracle) :
    (find_and_configure s none o).1.device = none ∧
    (find_and_configure s none o).2.1 = .ok false ∧
    (find_and_configure s none o).2.2 = [100] ∧
    ∀ d, (find_and_configure s (some d) o).2.2 = [100] := by
  refine ⟨rfl, rfl, rfl, ?_⟩
  intro d
  rw [find_and_configure]
  rcases hc : configure s d o with ⟨s1, r⟩
  cases r <;> rfl

end Pumpkin
